import Mathlib

/-!
Verification of the AgGrid custom-component wrapper and related static data
of the streamsync repository fragment.

The source under scrutiny:
* `src/ui/src/custom_components/AgGridCommunity.vue` — the `defaultSpec`
  constant, the `streamsync` component metadata, `renderGrid`, the `watch`
  callback on the evaluated `spec` field, and the `onMounted` hook.
* `src/unnamed/part_000` — the documentation site's `mint.json`; its
  `navigation` array is embedded verbatim below.

Modelling decisions:
* JSON values are a standard inductive (`Json`).  Numbers are natural
  numbers: every number literal appearing in the sources (35000, 32000,
  7200) is a nonnegative integer, and no arithmetic is performed on them.
* `JSON.stringify(v, null, 2)` and `JSON.parse` are external runtime
  functions; they are embedded as `Json.stringify2` / `Json.parse`,
  faithful to the ECMAScript algorithms restricted to the constructs the
  sources use (objects, arrays, double-quoted strings without escape
  sequences, nonnegative integer numerals, `true`/`false`/`null`, and
  whitespace).
* The third-party `Grid` class of `ag-grid-community` is opaque; the model
  records the calls the wrapper makes into it as an explicit effect trace
  (`Effect`), and keeps a minimal per-instance state (the options the
  instance was constructed with, and the row data last pushed to it).
-/

mutual

/-- JSON values, as produced by `JSON.parse` / consumed by `JSON.stringify`.
Object fields keep their textual order; numbers are restricted to
nonnegative integers (the only numbers occurring in the sources).  Arrays
and field lists are mutual inductives rather than `List`-nested ones so
that every function below is structurally recursive and computable. -/
inductive Json where
  | null : Json
  | bool (b : Bool) : Json
  | num (n : Nat) : Json
  | str (s : String) : Json
  | arr (items : JsonList) : Json
  | obj (fields : JsonFields) : Json
deriving DecidableEq

/-- The items of a JSON array, in order. -/
inductive JsonList where
  | nil : JsonList
  | cons (hd : Json) (tl : JsonList) : JsonList
deriving DecidableEq

/-- The fields of a JSON object, in textual order. -/
inductive JsonFields where
  | nil : JsonFields
  | cons (key : String) (val : Json) (tl : JsonFields) : JsonFields
deriving DecidableEq

end

/-- Build a `JsonList` from a `List` literal. -/
def JsonList.ofList : List Json → JsonList
  | [] => .nil
  | x :: xs => .cons x (JsonList.ofList xs)

/-- Build `JsonFields` from a `List` literal of key-value pairs. -/
def JsonFields.ofList : List (String × Json) → JsonFields
  | [] => .nil
  | (k, v) :: fs => .cons k v (JsonFields.ofList fs)

/-- A JSON array written with `List` literal syntax. -/
def Json.arrOf (items : List Json) : Json := .arr (JsonList.ofList items)

/-- A JSON object written with `List` literal syntax. -/
def Json.objOf (fields : List (String × Json)) : Json :=
  .obj (JsonFields.ofList fields)

/-- Number of items of a JSON array's item list. -/
def JsonList.length : JsonList → Nat
  | .nil => 0
  | .cons _ tl => JsonList.length tl + 1

/-- Do all items of a JSON array's item list satisfy `p`? -/
def JsonList.all (p : Json → Bool) : JsonList → Bool
  | .nil => true
  | .cons x tl => p x && JsonList.all p tl

/-- First field with the given name, `none` when absent. -/
def JsonFields.lookup : JsonFields → String → Option Json
  | .nil, _ => none
  | .cons k' v rest, k => if k' = k then some v else JsonFields.lookup rest k

namespace Json

/-- JavaScript truthiness test on a JSON-representable value:
`null`, `false`, `0` and the empty string are falsy, everything else
(objects and arrays included) is truthy. -/
def jsFalsy : Json → Bool
  | .null => true
  | .bool b => !b
  | .num n => n == 0
  | .str s => s == ""
  | .arr _ => false
  | .obj _ => false

/-- JavaScript property access `v.k`: defined on objects (first field with
the requested name, `undefined` i.e. `none` when absent), `undefined` on
any non-object. -/
def getField : Json → String → Option Json
  | .obj fs, k => fs.lookup k
  | _, _ => none

/-- Length of a JSON array, `none` on non-arrays. -/
def arrLength : Json → Option Nat
  | .arr l => some l.length
  | _ => none

/-- Is the value a JSON object? -/
def isObj : Json → Bool
  | .obj _ => true
  | _ => false

/-- Is the value a JSON string? -/
def isStr : Json → Bool
  | .str _ => true
  | _ => false

/-- Is the optional value an array all of whose items are objects? -/
def allObjItems : Option Json → Bool
  | some (.arr l) => l.all Json.isObj
  | _ => false

/-- The character `U+007B` (opening curly brace). -/
def lbrace : Char := Char.ofNat 123

/-- The character `U+007D` (closing curly brace). -/
def rbrace : Char := Char.ofNat 125

/-- A run of `n` spaces: the indentation JSON.stringify emits for gap
argument `2` at nesting level `n / 2`. -/
def indentStr (n : Nat) : String := String.mk (List.replicate n ' ')

mutual

/-- `JSON.stringify(v, null, 2)` at nesting level `lvl`: the ECMAScript
serialization algorithm with a two-space gap, restricted to the values the
embedding represents (strings are emitted verbatim between quotes; no
character of any string in the sources needs an escape sequence). -/
def stringify2At (lvl : Nat) : Json → String
  | .null => "null"
  | .bool true => "true"
  | .bool false => "false"
  | .num n => Nat.repr n
  | .str s => "\"" ++ s ++ "\""
  | .arr .nil => "[]"
  | .arr (.cons x xs) =>
      "[\n" ++ stringifyItems (lvl + 1) (.cons x xs) ++ "\n"
        ++ indentStr (2 * lvl) ++ "]"
  | .obj .nil => String.mk [lbrace, rbrace]
  | .obj (.cons k v fs) =>
      String.mk [lbrace] ++ "\n" ++ stringifyFields (lvl + 1) (.cons k v fs) ++ "\n"
        ++ indentStr (2 * lvl) ++ String.mk [rbrace]

/-- Comma-and-newline separated array items, each on its own indented
line. -/
def stringifyItems (lvl : Nat) : JsonList → String
  | .nil => ""
  | .cons x .nil => indentStr (2 * lvl) ++ stringify2At lvl x
  | .cons x (.cons y ys) =>
      indentStr (2 * lvl) ++ stringify2At lvl x ++ ",\n"
        ++ stringifyItems lvl (.cons y ys)

/-- Comma-and-newline separated object entries, each `"key": value` on its
own indented line. -/
def stringifyFields (lvl : Nat) : JsonFields → String
  | .nil => ""
  | .cons k v .nil =>
      indentStr (2 * lvl) ++ "\"" ++ k ++ "\": " ++ stringify2At lvl v
  | .cons k v (.cons k' v' fs) =>
      indentStr (2 * lvl) ++ "\"" ++ k ++ "\": " ++ stringify2At lvl v ++ ",\n"
        ++ stringifyFields lvl (.cons k' v' fs)

end

/-- `JSON.stringify(v, null, 2)`. -/
def stringify2 (v : Json) : String := stringify2At 0 v

/-- Drop leading JSON whitespace. -/
def skipWs : List Char → List Char
  | [] => []
  | c :: cs => if c = ' ' ∨ c = '\n' ∨ c = '\t' ∨ c = '\r' then skipWs cs else c :: cs

/-- Body of a JSON string after the opening quote, up to the closing quote.
Escape sequences are not handled: no string in the sources contains one. -/
def parseStringBody : List Char → Option (List Char × List Char)
  | [] => none
  | c :: cs =>
      if c = '"' then some ([], cs)
      else match parseStringBody cs with
           | some (s, rest) => some (c :: s, rest)
           | none => none

/-- Split a leading run of decimal digits. -/
def takeDigits : List Char → List Char × List Char
  | [] => ([], [])
  | c :: cs =>
      if c.isDigit then
        let (ds, rest) := takeDigits cs
        (c :: ds, rest)
      else ([], c :: cs)

/-- Value of a digit run. -/
def digitsToNat (ds : List Char) : Nat :=
  ds.foldl (fun a c => a * 10 + (c.toNat - 48)) 0

mutual

/-- `JSON.parse`, fuel-indexed recursive descent over the grammar the
sources use: objects, arrays, strings without escapes, nonnegative integer
numerals, `true`, `false`, `null`, whitespace.  Returns the value and the
unconsumed input. -/
def parseVal : Nat → List Char → Option (Json × List Char)
  | 0, _ => none
  | fuel + 1, cs =>
      match skipWs cs with
      | 'n' :: 'u' :: 'l' :: 'l' :: rest => some (.null, rest)
      | 't' :: 'r' :: 'u' :: 'e' :: rest => some (.bool true, rest)
      | 'f' :: 'a' :: 'l' :: 's' :: 'e' :: rest => some (.bool false, rest)
      | '"' :: rest =>
          match parseStringBody rest with
          | some (s, r) => some (.str (String.mk s), r)
          | none => none
      | '[' :: rest =>
          match skipWs rest with
          | ']' :: r => some (.arr .nil, r)
          | r =>
              match parseArrItems fuel r with
              | some (items, r') => some (.arr items, r')
              | none => none
      | c :: rest =>
          if c = lbrace then
            match skipWs rest with
            | d :: r =>
                if d = rbrace then some (.obj .nil, r)
                else
                  match parseObjItems fuel (d :: r) with
                  | some (fs, r') => some (.obj fs, r')
                  | none => none
            | [] => none
          else if c.isDigit then
            let (ds, rest') := takeDigits (c :: rest)
            some (.num (digitsToNat ds), rest')
          else none
      | [] => none

/-- Nonempty comma-separated array items, consuming the closing bracket. -/
def parseArrItems : Nat → List Char → Option (JsonList × List Char)
  | 0, _ => none
  | fuel + 1, cs =>
      match parseVal fuel cs with
      | none => none
      | some (v, rest) =>
          match skipWs rest with
          | ',' :: r =>
              match parseArrItems fuel r with
              | some (items, r') => some (.cons v items, r')
              | none => none
          | ']' :: r => some (.cons v .nil, r)
          | _ => none

/-- Nonempty comma-separated object entries, consuming the closing brace. -/
def parseObjItems : Nat → List Char → Option (JsonFields × List Char)
  | 0, _ => none
  | fuel + 1, cs =>
      match skipWs cs with
      | '"' :: r =>
          match parseStringBody r with
          | none => none
          | some (k, r1) =>
              match skipWs r1 with
              | ':' :: r2 =>
                  match parseVal fuel r2 with
                  | none => none
                  | some (v, r3) =>
                      match skipWs r3 with
                      | ',' :: r4 =>
                          match parseObjItems fuel r4 with
                          | some (fs, r5) => some (.cons (String.mk k) v fs, r5)
                          | none => none
                      | d :: r4 =>
                          if d = rbrace then some (.cons (String.mk k) v .nil, r4)
                          else none
                      | [] => none
              | _ => none
      | _ => none

end

/-- `JSON.parse(s)`: `none` models a thrown `SyntaxError`. -/
def parse (s : String) : Option Json :=
  match parseVal (s.length + 1) s.toList with
  | some (v, rest) => if skipWs rest = [] then some v else none
  | none => none

end Json

namespace AgGridCommunity

/-- The `defaultSpec` constant of `AgGridCommunity.vue`: three column
definitions and three data rows. -/
def defaultSpec : Json := .objOf
  [("columnDefs", .arrOf
      [.objOf [("headerName", .str "Make"), ("field", .str "make")],
       .objOf [("headerName", .str "Model"), ("field", .str "model")],
       .objOf [("headerName", .str "Price"), ("field", .str "price")]]),
   ("rowData", .arrOf
      [.objOf [("make", .str "Toyota"), ("model", .str "Celica"), ("price", .num 35000)],
       .objOf [("make", .str "Ford"), ("model", .str "Mondeo"), ("price", .num 32000)],
       .objOf [("make", .str "Porsche"), ("model", .str "Boxster"), ("price", .num 7200)]])]

/-- Modelled from the spec: the `FieldType` enumeration imported from
`../streamsyncTypes` (that file is not among the provided sources); the
spec describes "a declared value type drawn from a small closed set
(e.g., object/JSON, text, color, boolean)".  The component uses only
`FieldType.Object`. -/
inductive FieldType where
  | Object : FieldType
  | Text : FieldType
  | Color : FieldType
  | Boolean : FieldType
deriving DecidableEq

/-- One entry of a component's `fields` map: display name, serialized
default value, description, declared type. -/
structure FieldDef where
  name : String
  default : String
  desc : String
  type : FieldType
deriving DecidableEq

/-- A component's `streamsync` metadata record.  The `fields` map is kept
as an association list in declaration order. -/
structure StreamsyncMeta where
  name : String
  description : String
  category : String
  fields : List (String × FieldDef)
deriving DecidableEq

/-- The `spec` field declared by the Ag Grid component. -/
def specField : FieldDef :=
  { name := "Grid specification"
    default := Json.stringify2 defaultSpec
    desc := "Ag Grid specification"
    type := FieldType.Object }

/-- The `streamsync` metadata record of the Ag Grid component. -/
def streamsync : StreamsyncMeta :=
  { name := "Ag Grid"
    description := ""
    category := "Content"
    fields := [("spec", specField)] }

/-- The state the wrapper keeps of the one `ag-grid-community` `Grid`
instance it may own: the grid options it was constructed with, and the row
data last pushed into it (`none` when the options carried no `rowData`
property).  The `Grid` class itself is an opaque external dependency; this
record tracks exactly what the wrapper hands to it. -/
structure GridState where
  gridOptions : Json
  rowData : Option Json

/-- The calls `renderGrid` makes into the external world, in order: the
dynamic `import('ag-grid-community')`, a `new Grid(el, options)`
construction, or `gridOptions.api.setRowData(rows)` on the existing
instance. -/
inductive Effect where
  | moduleLoad : Effect
  | constructGrid (options : Json) : Effect
  | setRowData (rows : Option Json) : Effect

/-- JavaScript truthiness of the evaluated field value, where `none`
stands for `undefined`/`null` (an absent evaluation result). -/
def isFalsyOpt : Option Json → Bool
  | none => true
  | some j => j.jsFalsy

/-- The `renderGrid` function of `AgGridCommunity.vue`.

Inputs: `ssr` is `import.meta.env.SSR`; `specValue` is
`fields.spec.value` (the evaluated `spec` field, `none` when undefined);
`rootEl` tells whether `rootEl.value` is a mounted element; `aggrid` is
the component-local `aggrid` variable (`none` models `null`).

Returns the new `aggrid` value and the trace of external calls:
guard on SSR, guard on a falsy spec value or missing mount target, then
either construct the one `Grid` instance or push the new `rowData` into
the existing one. -/
def renderGrid (ssr : Bool) (specValue : Option Json) (rootEl : Bool)
    (aggrid : Option GridState) : Option GridState × List Effect :=
  if ssr then (aggrid, [])
  else match specValue with
    | none => (aggrid, [])
    | some spec =>
        if spec.jsFalsy || !rootEl then (aggrid, [])
        else match aggrid with
          | none =>
              (some { gridOptions := spec, rowData := spec.getField "rowData" },
               [.moduleLoad, .constructGrid spec])
          | some g =>
              (some { g with rowData := spec.getField "rowData" },
               [.moduleLoad, .setRowData (spec.getField "rowData")])

/-- The `watch(() => fields.spec.value, (spec) => ...)` callback: return
on a falsy new value, otherwise call `renderGrid` (which re-reads the same
evaluated value). -/
def watchSpec (ssr : Bool) (rootEl : Bool) (spec : Option Json)
    (aggrid : Option GridState) : Option GridState × List Effect :=
  if isFalsyOpt spec then (aggrid, [])
  else renderGrid ssr spec rootEl aggrid

/-- The `onMounted` hook: a single `renderGrid` call (the remaining body
only guards a commented-out `ResizeObserver`). -/
def mounted (ssr : Bool) (specValue : Option Json) (rootEl : Bool)
    (aggrid : Option GridState) : Option GridState × List Effect :=
  renderGrid ssr specValue rootEl aggrid

/-- Fold the watch callback over a sequence of changes of the evaluated
`spec` value, accumulating the trace of external calls. -/
def processChanges (ssr : Bool) (rootEl : Bool) :
    List (Option Json) → Option GridState → Option GridState × List Effect
  | [], aggrid => (aggrid, [])
  | spec :: rest, aggrid =>
      let (st, effs) := watchSpec ssr rootEl spec aggrid
      let (st', effs') := processChanges ssr rootEl rest st
      (st', effs ++ effs')

/-- A whole component lifetime: `aggrid` starts as `null`, `onMounted`
fires once with the initial evaluated value, then the watcher fires once
per change of the evaluated value. -/
def runLifetime (ssr : Bool) (rootEl : Bool) (initSpec : Option Json)
    (changes : List (Option Json)) : Option GridState × List Effect :=
  let (st, effs) := mounted ssr initSpec rootEl none
  let (st', effs') := processChanges ssr rootEl changes st
  (st', effs ++ effs')

/-- Number of `Grid` constructions in a trace. -/
def countConstructs : List Effect → Nat
  | [] => 0
  | .constructGrid _ :: rest => countConstructs rest + 1
  | _ :: rest => countConstructs rest

/-- Number of `setRowData` calls in a trace. -/
def countSetRowData : List Effect → Nat
  | [] => 0
  | .setRowData _ :: rest => countSetRowData rest + 1
  | _ :: rest => countSetRowData rest

/-- The whole component as registered: its `streamsync` metadata record
together with the one mutable script-setup variable, `aggrid`.  The source
operations assign only `aggrid`; the metadata is part of the state so that
its preservation is a provable statement rather than a typing accident. -/
structure ComponentState where
  meta : StreamsyncMeta
  aggrid : Option GridState

/-- `renderGrid` acting on the whole component state: the source body
assigns only the `aggrid` variable. -/
def renderGridC (ssr : Bool) (specValue : Option Json) (rootEl : Bool)
    (st : ComponentState) : ComponentState × List Effect :=
  let (g, effs) := renderGrid ssr specValue rootEl st.aggrid
  ({ st with aggrid := g }, effs)

/-- The watch callback acting on the whole component state. -/
def watchSpecC (ssr : Bool) (rootEl : Bool) (spec : Option Json)
    (st : ComponentState) : ComponentState × List Effect :=
  let (g, effs) := watchSpec ssr rootEl spec st.aggrid
  ({ st with aggrid := g }, effs)

/-- The `onMounted` hook acting on the whole component state. -/
def mountedC (ssr : Bool) (specValue : Option Json) (rootEl : Bool)
    (st : ComponentState) : ComponentState × List Effect :=
  let (g, effs) := mounted ssr specValue rootEl st.aggrid
  ({ st with aggrid := g }, effs)

end AgGridCommunity

namespace DocsManifest

open Json

/-- The `navigation` array of the documentation site's `mint.json`
(`src/unnamed/part_000`, lines 28-148), embedded verbatim. -/
def navigation : Json := .arrOf
  [.objOf [("group", .str "Getting started"),
         ("pages", .arrOf
            [.str "docs/framework/introduction",
             .str "docs/framework/quickstart",
             .str "docs/framework/ai-module"])],
   .objOf [("group", .str "Guides"),
         ("pages", .arrOf
            [.str "docs/framework/application-state",
             .str "docs/framework/event-handlers",
             .str "docs/framework/builder-basics",
             .str "docs/framework/handling-inputs",
             .str "docs/framework/backend-driven-ui",
             .str "docs/framework/stylesheets",
             .str "docs/framework/frontend-scripts",
             .str "docs/framework/custom-components",
             .str "docs/framework/authentication"])],
   .objOf [("group", .str "Tutorials"),
         ("pages", .arrOf
            [.str "docs/framework/chat-assistant",
             .str "docs/framework/social-post-generator",
             .str "docs/framework/product-description-generator"])],
   .objOf [("group", .str "Deployment"),
         ("pages", .arrOf
            [.str "docs/framework/deploy-with-docker",
             .str "docs/framework/testing"])],
   .objOf [("group", .str "Advanced"),
         ("pages", .arrOf
            [.str "docs/framework/repeater",
             .str "docs/framework/backend-initiated-actions",
             .str "docs/framework/page-routes",
             .str "docs/framework/sessions",
             .str "docs/framework/custom-server",
             .str "docs/framework/state-schema"])],
   .objOf [("group", .str "Layout"),
         ("pages", .arrOf
            [.str "docs/components/column",
             .str "docs/components/columns",
             .str "docs/components/header",
             .str "docs/components/horizontalstack",
             .str "docs/components/section",
             .str "docs/components/separator",
             .str "docs/components/sidebar",
             .str "docs/components/step",
             .str "docs/components/steps",
             .str "docs/components/tab",
             .str "docs/components/tabs"])],
   .objOf [("group", .str "Content"),
         ("pages", .arrOf
            [.str "docs/components/avatar",
             .str "docs/components/chatbot",
             .str "docs/components/dataframe",
             .str "docs/components/heading",
             .str "docs/components/icon",
             .str "docs/components/image",
             .str "docs/components/link",
             .str "docs/components/message",
             .str "docs/components/metric",
             .str "docs/components/plotlygraph",
             .str "docs/components/tags",
             .str "docs/components/text",
             .str "docs/components/vegalitechart",
             .str "docs/components/videoplayer"])],
   .objOf [("group", .str "Input"),
         ("pages", .arrOf
            [.str "docs/components/checkboxinput",
             .str "docs/components/dateinput",
             .str "docs/components/dropdowninput",
             .str "docs/components/fileinput",
             .str "docs/components/multiselectinput",
             .str "docs/components/numberinput",
             .str "docs/components/radioinput",
             .str "docs/components/ratinginput",
             .str "docs/components/selectinput",
             .str "docs/components/sliderinput",
             .str "docs/components/switchinput",
             .str "docs/components/textareainput",
             .str "docs/components/textinput"])],
   .objOf [("group", .str "Other"),
         ("pages", .arrOf
            [.str "docs/components/button",
             .str "docs/components/html",
             .str "docs/components/pagination",
             .str "docs/components/repeater",
             .str "docs/components/reuse",
             .str "docs/components/timer",
             .str "docs/components/webcamcapture"])],
   .objOf [("group", .str "Embed"),
         ("pages", .arrOf
            [.str "docs/components/googlemaps",
             .str "docs/components/mapbox",
             .str "docs/components/pdf",
             .str "docs/components/iframe"])]]

/-- Is the value an ordered list of page-identifier strings? -/
def isPageList : Json → Bool
  | .arr ps => ps.all Json.isStr
  | _ => false

/-- Is the value a navigation entry: a record with a `group` string label
and a `pages` field holding an ordered list of page-identifier strings? -/
def isNavEntry (j : Json) : Bool :=
  (match j.getField "group" with
   | some g => g.isStr
   | none => false)
  && (match j.getField "pages" with
      | some p => isPageList p
      | none => false)

/-- Is the value a navigation manifest: an array all of whose entries are
navigation entries? -/
def isNavManifest : Json → Bool
  | .arr es => es.all isNavEntry
  | _ => false

end DocsManifest

/-!
Helper lemmas shared by the claim theorems.
-/

open Json AgGridCommunity DocsManifest

set_option maxRecDepth 10000

/-- Construction count distributes over trace concatenation. -/
lemma countConstructs_append (a b : List Effect) :
    countConstructs (a ++ b) = countConstructs a + countConstructs b := by
  induction a with
  | nil => simp [countConstructs]
  | cons x xs ih => cases x <;> (simp [countConstructs, ih]; try omega)

/-- `setRowData` count distributes over trace concatenation. -/
lemma countSetRowData_append (a b : List Effect) :
    countSetRowData (a ++ b) = countSetRowData a + countSetRowData b := by
  induction a with
  | nil => simp [countSetRowData]
  | cons x xs ih => cases x <;> (simp [countSetRowData, ih]; try omega)

/-- When a `Grid` instance exists, `renderGrid` either does nothing (a
guard fired) or pushes the new `rowData` into the existing instance. -/
lemma renderGrid_some_cases (ssr : Bool) (sv : Option Json) (re : Bool)
    (g : GridState) :
    renderGrid ssr sv re (some g) = (some g, [])
    ∨ ∃ spec : Json, sv = some spec ∧
        renderGrid ssr sv re (some g)
          = (some { g with rowData := spec.getField "rowData" },
             [.moduleLoad, .setRowData (spec.getField "rowData")]) := by
  cases ssr with
  | true => exact Or.inl rfl
  | false =>
    cases sv with
    | none => exact Or.inl rfl
    | some spec =>
      by_cases h : (spec.jsFalsy || !re) = true
      · exact Or.inl (by simp [renderGrid, h])
      · exact Or.inr ⟨spec, rfl, by simp [renderGrid, h]⟩

/-- When no `Grid` instance exists, `renderGrid` either does nothing (a
guard fired) or constructs the one instance from the evaluated value. -/
lemma renderGrid_none_cases (ssr : Bool) (sv : Option Json) (re : Bool) :
    renderGrid ssr sv re none = (none, [])
    ∨ ∃ spec : Json, sv = some spec ∧
        renderGrid ssr sv re none
          = (some { gridOptions := spec, rowData := spec.getField "rowData" },
             [.moduleLoad, .constructGrid spec]) := by
  cases ssr with
  | true => exact Or.inl rfl
  | false =>
    cases sv with
    | none => exact Or.inl rfl
    | some spec =>
      by_cases h : (spec.jsFalsy || !re) = true
      · exact Or.inl (by simp [renderGrid, h])
      · exact Or.inr ⟨spec, rfl, by simp [renderGrid, h]⟩

/-- The watch callback on an existing instance never constructs, and
keeps the instance present. -/
lemma watchSpec_some_cases (ssr re : Bool) (spec : Option Json)
    (g : GridState) :
    watchSpec ssr re spec (some g) = (some g, [])
    ∨ ∃ sj : Json,
        watchSpec ssr re spec (some g)
          = (some { g with rowData := sj.getField "rowData" },
             [.moduleLoad, .setRowData (sj.getField "rowData")]) := by
  unfold watchSpec
  by_cases h : isFalsyOpt spec = true
  · exact Or.inl (by simp [h])
  · rcases renderGrid_some_cases ssr spec re g with h1 | ⟨sj, _, h1⟩
    · exact Or.inl (by simp [h, h1])
    · exact Or.inr ⟨sj, by simp [h, h1]⟩

/-- The watch callback with no existing instance either does nothing or
constructs the one instance. -/
lemma watchSpec_none_cases (ssr re : Bool) (spec : Option Json) :
    watchSpec ssr re spec none = (none, [])
    ∨ ∃ sj : Json,
        watchSpec ssr re spec none
          = (some { gridOptions := sj, rowData := sj.getField "rowData" },
             [.moduleLoad, .constructGrid sj]) := by
  unfold watchSpec
  by_cases h : isFalsyOpt spec = true
  · exact Or.inl (by simp [h])
  · rcases renderGrid_none_cases ssr spec re with h1 | ⟨sj, _, h1⟩
    · exact Or.inl (by simp [h, h1])
    · exact Or.inr ⟨sj, by simp [h, h1]⟩

/-- Processing any change sequence from a state that already holds an
instance constructs nothing and keeps an instance present. -/
lemma processChanges_some (ssr re : Bool) (changes : List (Option Json))
    (g : GridState) :
    countConstructs (processChanges ssr re changes (some g)).snd = 0
    ∧ ∃ g', (processChanges ssr re changes (some g)).fst = some g' := by
  induction changes generalizing g with
  | nil => exact ⟨rfl, g, rfl⟩
  | cons spec rest ih =>
    rcases watchSpec_some_cases ssr re spec g with h | ⟨sj, h⟩
    · have := ih g
      simpa [processChanges, h, countConstructs] using this
    · have := ih { g with rowData := sj.getField "rowData" }
      simpa [processChanges, h, countConstructs, countConstructs_append] using this

/-- Processing any change sequence from the empty state constructs at most
one instance. -/
lemma processChanges_none (ssr re : Bool) (changes : List (Option Json)) :
    countConstructs (processChanges ssr re changes none).snd ≤ 1 := by
  induction changes with
  | nil => simp [processChanges, countConstructs]
  | cons spec rest ih =>
    rcases watchSpec_none_cases ssr re spec with h | ⟨sj, h⟩
    · simpa [processChanges, h, countConstructs] using ih
    · have h2 := processChanges_some ssr re rest
        { gridOptions := sj, rowData := sj.getField "rowData" }
      simp [processChanges, h, countConstructs, countConstructs_append, h2.1]

/-- Processing a concatenation of change sequences processes the first
sequence, then the second from the resulting state, concatenating the
traces. -/
lemma processChanges_append (ssr re : Bool) (a b : List (Option Json))
    (st : Option GridState) :
    processChanges ssr re (a ++ b) st
      = ((processChanges ssr re b (processChanges ssr re a st).fst).fst,
         (processChanges ssr re a st).snd
           ++ (processChanges ssr re b (processChanges ssr re a st).fst).snd) := by
  induction a generalizing st with
  | nil => simp [processChanges]
  | cons spec rest ih =>
    rcases hw : watchSpec ssr re spec st with ⟨st1, e1⟩
    simp [processChanges, hw, ih]

/-- A lifetime is the mount-time `renderGrid` call followed by the
watcher-triggered calls from the resulting state. -/
lemma runLifetime_eq (ssr rootEl : Bool) (initSpec : Option Json)
    (changes : List (Option Json)) :
    runLifetime ssr rootEl initSpec changes
      = ((processChanges ssr rootEl changes
            (renderGrid ssr initSpec rootEl none).fst).fst,
         (renderGrid ssr initSpec rootEl none).snd
           ++ (processChanges ssr rootEl changes
                 (renderGrid ssr initSpec rootEl none).fst).snd) := by
  rcases h : renderGrid ssr initSpec rootEl none with ⟨g, effs⟩
  rcases h2 : processChanges ssr rootEl changes g with ⟨g', effs'⟩
  simp [runLifetime, mounted, h, h2]

/-!
Claim theorems.
-/

/-- C1: for every invocation of `renderGrid`, if the evaluated
specification value is absent (undefined/null/falsy) or the mount target
element is absent, the function returns without instantiating the widget
and without updating any state: the trace is empty (no `Grid` is
constructed) and the `aggrid` reference keeps its previous value. -/
theorem renderGrid_skips_absent (ssr : Bool) (specValue : Option Json)
    (rootEl : Bool) (aggrid : Option GridState)
    (h : isFalsyOpt specValue = true ∨ rootEl = false) :
    renderGrid ssr specValue rootEl aggrid = (aggrid, []) := by
  cases ssr with
  | true => rfl
  | false =>
    cases specValue with
    | none => rfl
    | some spec =>
      rcases h with h | h
      · simp only [isFalsyOpt] at h
        simp [renderGrid, h]
      · simp [renderGrid, h]

/-- Witness for C1: a falsy evaluated value leaves a previously stored
`aggrid` reference untouched and performs no external call. -/
theorem renderGrid_skips_absent_witness :
    renderGrid false (some .null) true (some ⟨.num 1, none⟩)
      = (some ⟨.num 1, none⟩, []) :=
  renderGrid_skips_absent false (some .null) true (some ⟨.num 1, none⟩)
    (Or.inl (by decide))

/-- C2: across a whole component lifetime (mount plus any sequence of
watch-triggered refreshes) at most one `Grid` instance is ever
constructed; `renderGrid` invoked while an instance exists (`aggrid`
non-null) constructs nothing, so construction happens only when `aggrid`
is null; and a watch-triggered change of the evaluated value to a truthy
value, with the instance present and mounted outside SSR, refreshes the
displayed rows via the existing instance's `setRowData` — keeping its
grid options and constructing no second instance. -/
theorem grid_constructed_at_most_once (ssr rootEl : Bool)
    (initSpec : Option Json) (changes : List (Option Json)) :
    countConstructs (runLifetime ssr rootEl initSpec changes).snd ≤ 1
    ∧ (∀ (sv : Option Json) (g : GridState),
        countConstructs (renderGrid ssr sv rootEl (some g)).snd = 0)
    ∧ ∀ (spec : Json) (g : GridState), spec.jsFalsy = false →
        watchSpec false true (some spec) (some g)
          = (some { gridOptions := g.gridOptions,
                    rowData := spec.getField "rowData" },
             [.moduleLoad, .setRowData (spec.getField "rowData")]) := by
  refine ⟨?_, ?_, ?_⟩
  · rw [runLifetime_eq]
    rcases renderGrid_none_cases ssr initSpec rootEl with h | ⟨sj, _, h⟩
    · rw [h]
      simpa [countConstructs_append, countConstructs] using
        processChanges_none ssr rootEl changes
    · rw [h]
      have h2 := processChanges_some ssr rootEl changes
        { gridOptions := sj, rowData := sj.getField "rowData" }
      simp [countConstructs_append, countConstructs, h2.1]
  · intro sv g
    rcases renderGrid_some_cases ssr sv rootEl g with h | ⟨sj, _, h⟩ <;>
      simp [h, countConstructs]
  · intro spec g h
    simp [watchSpec, isFalsyOpt, h, renderGrid]

/-- Witness for C2: a watch-triggered change to the truthy `defaultSpec`
while an instance constructed with options `.num 1` exists refreshes via
`setRowData` only, keeping those options. -/
theorem grid_constructed_at_most_once_witness :
    watchSpec false true (some defaultSpec) (some ⟨.num 1, none⟩)
      = (some { gridOptions := .num 1,
                rowData := defaultSpec.getField "rowData" },
         [.moduleLoad, .setRowData (defaultSpec.getField "rowData")]) :=
  (grid_constructed_at_most_once false true none []).2.2 defaultSpec
    ⟨.num 1, none⟩ (by decide)

/-- C3: when a `Grid` instance already exists, a (non-guarded) refresh
applies only the `rowData` property of the new specification value: the
instance's construction-time grid options (its `columnDefs` included) are
left unchanged, and the only call made to the widget is
`setRowData` with the new value's `rowData`. -/
theorem refresh_changes_only_rowData (spec : Json) (g : GridState)
    (h : spec.jsFalsy = false) :
    renderGrid false (some spec) true (some g)
      = (some { gridOptions := g.gridOptions,
                rowData := spec.getField "rowData" },
         [.moduleLoad, .setRowData (spec.getField "rowData")]) := by
  simp [renderGrid, h]

/-- Witness for C3: refreshing an instance constructed with options
`.num 1` against `defaultSpec` keeps those options and pushes only
`defaultSpec`'s rows. -/
theorem refresh_changes_only_rowData_witness :
    renderGrid false (some defaultSpec) true (some ⟨.num 1, none⟩)
      = (some { gridOptions := .num 1,
                rowData := defaultSpec.getField "rowData" },
         [.moduleLoad, .setRowData (defaultSpec.getField "rowData")]) :=
  refresh_changes_only_rowData defaultSpec ⟨.num 1, none⟩ (by decide)

/-- C4: updates are serialized: one change of the evaluated value triggers
at most one grid-mutating call (and a falsy change triggers none and
leaves the state untouched), and after a change sequence ending in a
truthy value the displayed rows are that last value's `rowData` (last
write wins). -/
theorem updates_serialized_last_write_wins :
    (∀ (ssr rootEl : Bool) (spec : Option Json) (st : Option GridState),
        countSetRowData (watchSpec ssr rootEl spec st).snd
          + countConstructs (watchSpec ssr rootEl spec st).snd ≤ 1)
    ∧ (∀ (ssr rootEl : Bool) (spec : Option Json) (st : Option GridState),
        isFalsyOpt spec = true → watchSpec ssr rootEl spec st = (st, []))
    ∧ ∀ (changes : List (Option Json)) (lastSpec : Json) (g : GridState),
        lastSpec.jsFalsy = false →
        ((processChanges false true (changes ++ [some lastSpec])
            (some g)).fst).map GridState.rowData
          = some (lastSpec.getField "rowData") := by
  refine ⟨?_, ?_, ?_⟩
  · intro ssr rootEl spec st
    cases st with
    | some g =>
      rcases watchSpec_some_cases ssr rootEl spec g with h | ⟨sj, h⟩ <;>
        simp [h, countSetRowData, countConstructs]
    | none =>
      rcases watchSpec_none_cases ssr rootEl spec with h | ⟨sj, h⟩ <;>
        simp [h, countSetRowData, countConstructs]
  · intro ssr rootEl spec st h
    simp [watchSpec, h]
  · intro changes lastSpec g h
    obtain ⟨-, g1, hg1⟩ := processChanges_some false true changes g
    rw [processChanges_append, hg1]
    have hw : watchSpec false true (some lastSpec) (some g1)
        = (some { g1 with rowData := lastSpec.getField "rowData" },
           [.moduleLoad, .setRowData (lastSpec.getField "rowData")]) := by
      simp [watchSpec, isFalsyOpt, h, renderGrid]
    simp [processChanges, hw]

/-- Witness for C4: after an intermediate write of `.num 7` a final write
of `defaultSpec`, the displayed rows are `defaultSpec`'s `rowData`. -/
theorem updates_serialized_last_write_wins_witness :
    ((processChanges false true ([some (.num 7)] ++ [some defaultSpec])
        (some ⟨.null, none⟩)).fst).map GridState.rowData
      = some (defaultSpec.getField "rowData") :=
  updates_serialized_last_write_wins.2.2 [some (.num 7)] defaultSpec
    ⟨.null, none⟩ (by decide)

/-- C5: the component's `streamsync` metadata record (name, category and
the fields map) is immutable after registration: neither `renderGrid`,
nor the watch callback, nor the mount hook changes any part of it. -/
theorem streamsync_metadata_immutable (ssr : Bool)
    (specValue spec : Option Json) (rootEl : Bool) (st : ComponentState) :
    (renderGridC ssr specValue rootEl st).fst.meta = st.meta
    ∧ (watchSpecC ssr rootEl spec st).fst.meta = st.meta
    ∧ (mountedC ssr specValue rootEl st).fst.meta = st.meta := by
  refine ⟨?_, ?_, ?_⟩
  · rcases h : renderGrid ssr specValue rootEl st.aggrid with ⟨g, effs⟩
    simp [renderGridC, h]
  · rcases h : watchSpec ssr rootEl spec st.aggrid with ⟨g, effs⟩
    simp [watchSpecC, h]
  · rcases h : mounted ssr specValue rootEl st.aggrid with ⟨g, effs⟩
    simp [mountedC, h]

/-- C6: the `spec` field, declared with type `FieldType.Object`, has a
default that is valid under that type: the serialized `defaultSpec`
parses back to a JSON object, with a `columnDefs` list of three column
records and a `rowData` list of three row records. -/
theorem specField_default_valid_object :
    streamsync.fields = [("spec", specField)]
    ∧ specField.type = FieldType.Object
    ∧ Json.parse specField.default = some defaultSpec
    ∧ defaultSpec.isObj = true
    ∧ (defaultSpec.getField "columnDefs").bind Json.arrLength = some 3
    ∧ (defaultSpec.getField "rowData").bind Json.arrLength = some 3
    ∧ allObjItems (defaultSpec.getField "columnDefs") = true
    ∧ allObjItems (defaultSpec.getField "rowData") = true :=
  ⟨rfl, rfl, by decide, rfl, by decide, by decide, by decide, by decide⟩

/-- C7: field names are unique within the component: the Ag Grid
component's fields map declares exactly the one field name `spec`, with
no duplicates. -/
theorem field_names_unique :
    (streamsync.fields.map Prod.fst).Nodup
    ∧ streamsync.fields.map Prod.fst = ["spec"] :=
  ⟨by decide, rfl⟩

/-- C8: the documentation site's navigation manifest is a static tree
mapping group labels to ordered lists of page identifiers: every entry of
the `navigation` array is a record with a `group` string label and a
`pages` field holding an ordered list of page-identifier strings. -/
theorem navigation_manifest_wellformed :
    isNavManifest navigation = true := by decide

/-- C9: when the evaluated specification value changes to a falsy value,
the watch callback returns without calling `renderGrid`: no external call
is made and the previously rendered widget state (its displayed rows
included) is left unchanged rather than cleared. -/
theorem watch_falsy_leaves_widget (ssr rootEl : Bool) (spec : Option Json)
    (aggrid : Option GridState) (h : isFalsyOpt spec = true) :
    watchSpec ssr rootEl spec aggrid = (aggrid, []) := by
  simp [watchSpec, h]

/-- Witness for C9: a change to the empty string leaves a widget showing
rows `.num 2` exactly as it was. -/
theorem watch_falsy_leaves_widget_witness :
    watchSpec false true (some (.str "")) (some ⟨.num 1, some (.num 2)⟩)
      = (some ⟨.num 1, some (.num 2)⟩, []) :=
  watch_falsy_leaves_widget false true (some (.str ""))
    (some ⟨.num 1, some (.num 2)⟩) (by decide)

/-- C10: in a server-side-rendering environment (`import.meta.env.SSR`
true), `renderGrid` returns immediately for every input: the trace is
empty (in particular no module load is attempted and no widget is
instantiated) and the state is unchanged. -/
theorem ssr_renderGrid_noop (specValue : Option Json) (rootEl : Bool)
    (aggrid : Option GridState) :
    renderGrid true specValue rootEl aggrid = (aggrid, []) := rfl
